import Mathlib

/-
  Verification of the TurboTrends news-bot pipeline (src/main.py).

  Shallow embedding conventions:
  - Python strings are `List Char` (abbrev `Str`); the helpers `pyStrip`,
    `pySplit1`, `pyReplace`, `isSubstr`, `pyLower` model `str.strip()`,
    `str.split(sep, 1)`, `str.replace(pat, rep)`, the `in` substring test and
    `str.lower()` (ASCII-faithful).
  - A Python dict field that may be missing is `Option`; a field that is
    present but may be `None` is `Option (Option Str)` (outer layer: key
    present?, inner layer: null?).
  - Fallible code returns `Except Str`, the error payload being the text that
    `str(e)` would produce (quotes of the Python message omitted).
  - External collaborators are oracles: the model reply, the fetch response
    and injected insert failures are inputs, not effects.
  - `datetime.strptime` on `publishedAt` is modelled as the identity on the
    raw string (timestamp parsing is not the subject of any claim).
-/

abbrev Str := List Char

def str (s : String) : Str := s.data

/-- Whitespace characters stripped by Python `str.strip()` (ASCII subset). -/
def pyIsSpace (c : Char) : Bool :=
  c = ' ' || c = '\t' || c = '\n' || c = '\r' || c = '\x0b' || c = '\x0c'

/-- Python `s.strip()`: drop whitespace from both ends. -/
def pyStrip (s : Str) : Str :=
  ((s.dropWhile pyIsSpace).reverse.dropWhile pyIsSpace).reverse

/-- Python `s.split(sep, 1)`: split at the first occurrence of `sep`;
`(s, none)` when `sep` does not occur. -/
def pySplit1 (sep : Str) : Str → Str × Option Str
  | [] => ([], Option.none)
  | c :: rest =>
    if sep.isPrefixOf (c :: rest) then ([], some ((c :: rest).drop sep.length))
    else
      let r := pySplit1 sep rest
      (c :: r.1, r.2)

/-- Fuel-indexed worker for `pyReplace`; the fuel is the input length, and one
unit is spent per examined character, so it never runs out. -/
def pyReplaceF (pat rep : Str) : Nat → Str → Str
  | 0, s => s
  | _ + 1, [] => []
  | fuel + 1, c :: rest =>
    if pat.isPrefixOf (c :: rest) then
      rep ++ pyReplaceF pat rep fuel ((c :: rest).drop pat.length)
    else c :: pyReplaceF pat rep fuel rest

/-- Python `s.replace(pat, rep)` for a non-empty `pat`: replace every
non-overlapping occurrence, scanning left to right. -/
def pyReplace (pat rep s : Str) : Str := pyReplaceF pat rep s.length s

/-- Python `pat in s`: substring containment. -/
def isSubstr (pat : Str) : Str → Bool
  | [] => pat.isEmpty
  | c :: rest => pat.isPrefixOf (c :: rest) || isSubstr pat rest

/-- Python `s.lower()` (ASCII-faithful). -/
def pyLower (s : Str) : Str := s.map Char.toLower

/-- Python truthiness of a nullable string: `None` and `""` are falsy. -/
def truthy : Option Str → Bool
  | Option.none => false
  | some s => !s.isEmpty

/-- The `{'headline': ..., 'summary': ...}` dict built by `summarize_article`. -/
structure SummResult where
  headline : Str
  summary : Str
deriving DecidableEq, Repr

def headlinePat : Str := str "Headline: "

def blankSep : Str := str "\n\n"

/-- Reply parsing of `summarize_article` (src/main.py lines 94-99):
`summary_text = reply.strip()`, `parts = summary_text.split('\n\n', 1)`,
`headline = parts[0].replace('Headline: ', '')`,
`summary = parts[1] if len(parts) > 1 else headline`. -/
def parseReply (reply : Str) : SummResult :=
  let s := pyStrip reply
  match pySplit1 blankSep s with
  | (pre, some post) => ⟨pyReplace headlinePat [] pre, post⟩
  | (pre, Option.none) =>
    let h := pyReplace headlinePat [] pre
    ⟨h, h⟩

/-- An article record from the feed. `title`, `source.name`, `url`,
`publishedAt` model dict lookups that raise `KeyError` when absent
(`Option.none`); `description`/`content` additionally distinguish a present
null value (inner `Option.none`). -/
structure Article where
  title : Option Str
  description : Option (Option Str)
  content : Option (Option Str)
  sourceName : Option Str
  url : Option Str
  publishedAt : Option Str
deriving DecidableEq, Repr

def keyErrTitle : Str := str "title"
def keyErrDescription : Str := str "description"
def keyErrContent : Str := str "content"
def keyErrSource : Str := str "source"
def keyErrUrl : Str := str "url"
def keyErrPublishedAt : Str := str "publishedAt"

/-- The prompt text `article['description'] or article['content'] or ''`
(src/main.py line 80), given the looked-up description value `d`; Python `or`
short-circuits, so `content` is only looked up when `d` is falsy. -/
def descOrContent (art : Article) (d : Option Str) : Except Str Str :=
  if truthy d then Except.ok (d.getD [])
  else
    match art.content with
    | Option.none => Except.error keyErrContent
    | some c => Except.ok (if truthy c then c.getD [] else [])

/-- `summarize_article` (src/main.py lines 75-110). The prompt construction on
line 80 runs BEFORE the `try:` block, so its key lookups propagate; everything
from the model call onwards is inside the `try`, whose `except` returns
`{'headline': article['title'], 'summary': article['description'] or ''}`.
`reply` is the oracle for the model call: `Except.ok txt` is a successful
reply with text `txt`, `Except.error e` any model-call failure. -/
def summarize_article (art : Article) (reply : Except Str Str) :
    Except Str SummResult :=
  match art.title with
  | Option.none => Except.error keyErrTitle
  | some t =>
    match art.description with
    | Option.none => Except.error keyErrDescription
    | some d =>
      match descOrContent art d with
      | Except.error e => Except.error e
      | Except.ok _ =>
        match reply with
        | Except.ok txt => Except.ok (parseReply txt)
        | Except.error _ => Except.ok ⟨t, if truthy d then d.getD [] else []⟩

/-- A persisted row of the `articles` table (id/created_at surrogate columns
omitted; they are server-assigned and unconstrained). -/
structure DBRow where
  title : Str
  summary : Str
  original_title : Str
  source : Str
  url : Str
  published_at : Str
deriving DecidableEq, Repr

abbrev DBState := List DBRow

/-- The `article_data` dict built in `process_article`. -/
structure ArticleData where
  headline : Str
  summary : Str
  original_title : Str
  source : Str
  url : Str
  published_at : Str
deriving DecidableEq, Repr

def mkRow (d : ArticleData) : DBRow :=
  ⟨d.headline, d.summary, d.original_title, d.source, d.url, d.published_at⟩

/-- The SQL `ON CONFLICT (url)` test: does a stored row carry this url? -/
def dbHasUrl (db : DBState) (u : Str) : Bool :=
  db.any (fun r => decide (r.url = u))

/-- Number of stored rows carrying url `u`. -/
def urlCount (db : DBState) (u : Str) : Nat :=
  (db.filter (fun r => decide (r.url = u))).length

/-- The psycopg2 connection as seen by the adapter: `nullc` models the Python
value `None` (a failed `connect_db`), `closedc` a connection object whose
session is lost (closed socket), `live db` a working connection whose table
holds `db`. -/
inductive Conn where
  | nullc : Conn
  | closedc : Conn
  | live : DBState → Conn
deriving DecidableEq, Repr

/-- `str(e)` for `None.cursor()` — an `AttributeError` (quotes omitted). -/
def noneCursorMsg : Str := str "NoneType object has no attribute cursor"

/-- `str(e)` for `cursor()` on a lost connection — psycopg2 InterfaceError. -/
def closedMsg : Str := str "connection already closed"

/-- `insert_article` (src/main.py lines 130-159). `cursor = conn.cursor()` on
line 131 runs BEFORE the `try:` block, so a null or lost connection raises to
the caller; inside the `try`, the statement `INSERT ... ON CONFLICT (url) DO
NOTHING RETURNING id` returns a row exactly when it inserted one, and the
`except` branch logs, rolls back (table unchanged) and returns `False`.
`failInj` injects an arbitrary non-conflict statement/commit failure. -/
def insert_article (conn : Conn) (failInj : Bool) (d : ArticleData) :
    Except Str (DBState × Bool) :=
  match conn with
  | Conn.nullc => Except.error noneCursorMsg
  | Conn.closedc => Except.error closedMsg
  | Conn.live db =>
    if failInj then Except.ok (db, false)
    else if dbHasUrl db d.url then Except.ok (db, false)
    else Except.ok (db ++ [mkRow d], true)

/-- Is an `Except` value a success? -/
def isOkE {α : Type} : Except Str α → Bool
  | Except.ok _ => true
  | Except.error _ => false

/-- A Publisher invocation: the `(headline, url)` pair handed to `post_tweet`. -/
abbrev Post := Str × Str

/-- `process_article` (src/main.py lines 188-205): summarize, build
`article_data`, insert, and call `post_tweet` only when the insert returned
`True`. The Python function body has no `return` statement, so its value is
always `None`: the third component of the result is that return value. -/
def process_article (art : Article) (reply : Except Str Str) (failInj : Bool)
    (conn : Conn) : Except Str (DBState × Option Post × Option Unit) :=
  match summarize_article art reply with
  | Except.error e => Except.error e
  | Except.ok processed =>
    match art.title with
    | Option.none => Except.error keyErrTitle
    | some t =>
      match art.sourceName with
      | Option.none => Except.error keyErrSource
      | some sn =>
        match art.url with
        | Option.none => Except.error keyErrUrl
        | some u =>
          match art.publishedAt with
          | Option.none => Except.error keyErrPublishedAt
          | some pa =>
            match insert_article conn failInj
                ⟨processed.headline, processed.summary, t, sn, u, pa⟩ with
            | Except.error e => Except.error e
            | Except.ok (db', isNew) =>
              if isNew then
                Except.ok (db', some (processed.headline, u), Option.none)
              else Except.ok (db', Option.none, Option.none)

/-- `fetch_news` (src/main.py lines 54-73): the whole request/parse is inside
one `try`; the oracle `resp` is `Except.ok arts` for a well-formed response
and `Except.error e` for any transport, HTTP-status or body-shape failure. -/
def fetch_news (resp : Except Str (List Article)) : List Article :=
  match resp with
  | Except.ok arts => arts
  | Except.error _ => []

/-- Per-cycle oracles: the fetch outcome, the model reply for the i-th
article, and an injected non-conflict insert failure for the i-th article. -/
structure CycleInputs where
  fetched : Except Str (List Article)
  replies : Nat → Except Str Str
  insertFail : Nat → Bool

/-- Outcome of the `for article in articles` loop inside `run_news_cycle`:
final connection contents, Publisher invocations made, the value of
`processed_count`, and the uncaught error (if any) that aborted the loop. -/
structure LoopOut where
  conn : Conn
  posts : List Post
  count : Nat
  err : Option Str
deriving DecidableEq, Repr

/-- The `for` loop of `run_news_cycle` (src/main.py lines 213-215):
sequential, `processed_count += 1` when `process_article(...)` is truthy, and
the first uncaught exception aborts the loop. -/
def processLoop (replies : Nat → Except Str Str) (insFail : Nat → Bool) :
    List Article → Nat → Conn → LoopOut
  | [], _, conn => ⟨conn, [], 0, Option.none⟩
  | a :: rest, i, conn =>
    match process_article a (replies i) (insFail i) conn with
    | Except.error e => ⟨conn, [], 0, some e⟩
    | Except.ok (db', p, v) =>
      let out := processLoop replies insFail rest (i + 1) (Conn.live db')
      ⟨out.conn, p.toList ++ out.posts,
        (if v.isSome then 1 else 0) + out.count, out.err⟩

def connWord : Str := str "connection"

/-- Result of one `run_news_cycle` call: the connection it returns to the
main loop, the Publisher invocations, the computed `processed_count`, and
whether `connect_db()` was re-invoked. -/
structure CycleResult where
  conn : Conn
  posts : List Post
  count : Nat
  reconnected : Bool
deriving DecidableEq, Repr

/-- `run_news_cycle` (src/main.py lines 207-224): fetch, process each article,
catch any exception; when the error text contains "connection"
(case-insensitively) return `connect_db()`'s result `rc`, otherwise return
the same connection. -/
def run_news_cycle (conn : Conn) (inp : CycleInputs) (rc : Conn) :
    CycleResult :=
  let articles := fetch_news inp.fetched
  let out := processLoop inp.replies inp.insertFail articles 0 conn
  match out.err with
  | Option.none => ⟨out.conn, out.posts, out.count, false⟩
  | some e =>
    if isSubstr connWord (pyLower e) then ⟨rc, out.posts, out.count, true⟩
    else ⟨out.conn, out.posts, out.count, false⟩

/-- Observable events of one main-loop iteration (src/main.py lines 244-254):
a cycle start and the `time.sleep(60)` idle increment. -/
inductive LoopEvent where
  | cycleStart : LoopEvent
  | sleepTick : LoopEvent
deriving DecidableEq, Repr

/-- The `while running:` loop (src/main.py lines 244-254) at iteration
granularity. `sig i` says a termination signal has been delivered (the handler
set `running = False`) by the time of the i-th loop-head check — the loop's
safe points, reached during the idle sleep; `due i` is the wall-clock cadence
test `(current_time - last_check).total_seconds() >= check_interval * 60`.
Each surviving iteration emits an optional cycle start and one sleep tick. -/
def mainLoop (sig due : Nat → Bool) : Nat → Nat → List LoopEvent
  | 0, _ => []
  | fuel + 1, i =>
    if sig i then []
    else
      (if due i then [LoopEvent.cycleStart] else []) ++
        LoopEvent.sleepTick :: mainLoop sig due fuel (i + 1)

/-! ### String lemmas -/

lemma isPrefixOf_append_drop : ∀ (p l : Str), p.isPrefixOf l = true →
    l = p ++ l.drop p.length := by
  intro p
  induction p with
  | nil => intro l _; simp
  | cons a p ih =>
    intro l h
    cases l with
    | nil => simp [List.isPrefixOf] at h
    | cons b l' =>
      simp only [List.isPrefixOf, Bool.and_eq_true, beq_iff_eq] at h
      obtain ⟨rfl, h2⟩ := h
      simp only [List.cons_append, List.length_cons, List.drop_succ_cons]
      exact congrArg (a :: ·) (ih l' h2)

lemma pySplit1_some_append : ∀ (sep s pre post : Str),
    pySplit1 sep s = (pre, some post) → s = pre ++ sep ++ post := by
  intro sep s
  induction s with
  | nil => intro pre post h; simp [pySplit1] at h
  | cons c rest ih =>
    intro pre post h
    cases hp : sep.isPrefixOf (c :: rest) with
    | true =>
      simp [pySplit1, hp] at h
      obtain ⟨rfl, rfl⟩ := h
      simpa using isPrefixOf_append_drop sep (c :: rest) hp
    | false =>
      simp [pySplit1, hp] at h
      cases hq : pySplit1 sep rest with
      | mk p1 q1 =>
        rw [hq] at h
        cases q1 with
        | none => simp at h
        | some q' =>
          simp at h
          obtain ⟨rfl, rfl⟩ := h
          have := ih p1 q' hq
          simp [this]

lemma isSubstr_false_split : ∀ (sep s : Str), isSubstr sep s = false →
    pySplit1 sep s = (s, Option.none) := by
  intro sep s
  induction s with
  | nil => intro _; simp [pySplit1]
  | cons c rest ih =>
    intro h
    simp [isSubstr] at h
    simp [pySplit1, h.1, ih h.2]

/-! ### Storage lemmas -/

lemma urlCount_append : ∀ (db l : DBState) (u : Str),
    urlCount (db ++ l) u = urlCount db u + urlCount l u := by
  intro db l u
  simp [urlCount, List.filter_append]

lemma dbHasUrl_false_count : ∀ (db : DBState) (u : Str),
    dbHasUrl db u = false → urlCount db u = 0 := by
  intro db u
  induction db with
  | nil => intro _; rfl
  | cons r t ih =>
    intro h
    simp only [dbHasUrl, List.any_cons, Bool.or_eq_false_iff] at h
    rw [urlCount, List.filter_cons]
    simp only [h.1, Bool.false_eq_true, if_false]
    exact ih h.2

lemma dbHasUrl_true_count : ∀ (db : DBState) (u : Str),
    dbHasUrl db u = true → 1 ≤ urlCount db u := by
  intro db u
  induction db with
  | nil => intro h; simp [dbHasUrl] at h
  | cons r t ih =>
    intro h
    simp only [dbHasUrl, List.any_cons] at h
    rw [urlCount, List.filter_cons]
    cases hd : decide (r.url = u) with
    | true =>
      simp only [hd, if_true, List.length_cons]
      exact Nat.succ_le_succ (Nat.zero_le _)
    | false =>
      rw [hd] at h
      simp only [Bool.false_or] at h
      simp only [hd, Bool.false_eq_true, if_false]
      exact ih h

lemma urlCount_single : ∀ (d : ArticleData) (u : Str),
    urlCount [mkRow d] u = if d.url = u then 1 else 0 := by
  intro d u
  by_cases hd : d.url = u <;>
    simp [urlCount, mkRow, List.filter_cons, List.filter_nil, hd]

lemma dbHasUrl_append : ∀ (db l : DBState) (u : Str),
    dbHasUrl (db ++ l) u = (dbHasUrl db u || dbHasUrl l u) := by
  intro db l u
  simp [dbHasUrl, List.any_append]

lemma dbHasUrl_single_self : ∀ (d : ArticleData), dbHasUrl [mkRow d] d.url = true := by
  intro d
  simp [dbHasUrl, mkRow]

/-! ### Pipeline lemmas -/

lemma truthy_false_getD : ∀ (d : Option Str), truthy d = false → d.getD [] = [] := by
  intro d h
  cases d with
  | none => rfl
  | some s =>
    simp only [truthy, Bool.not_eq_false'] at h
    simpa using h

lemma descOrContent_ok : ∀ (art : Article) (d : Option Str),
    (truthy d = false → ∃ c, art.content = some c) →
    ∃ s, descOrContent art d = Except.ok s := by
  intro art d hc
  cases htr : truthy d with
  | true => exact ⟨d.getD [], by simp [descOrContent, htr]⟩
  | false =>
    obtain ⟨c, hcc⟩ := hc htr
    exact ⟨if truthy c then c.getD [] else [], by simp [descOrContent, htr, hcc]⟩

lemma summarize_ok : ∀ (art : Article) (t : Str) (d : Option Str)
    (reply : Except Str Str),
    art.title = some t → art.description = some d →
    (truthy d = false → ∃ c, art.content = some c) →
    ∃ res, summarize_article art reply = Except.ok res := by
  intro art t d reply ht hd hc
  obtain ⟨s, hs⟩ := descOrContent_ok art d hc
  cases reply with
  | ok txt => exact ⟨parseReply txt, by simp [summarize_article, ht, hd, hs]⟩
  | error e =>
    exact ⟨⟨t, if truthy d then d.getD [] else []⟩,
      by simp [summarize_article, ht, hd, hs]⟩

lemma process_article_ret_none : ∀ (a : Article) (r : Except Str Str) (f : Bool)
    (conn : Conn) (x : DBState × Option Post × Option Unit),
    process_article a r f conn = Except.ok x → x.2.2 = Option.none := by
  intro a r f conn x h
  simp only [process_article] at h
  repeat' split at h
  all_goals
    first
    | exact Except.noConfusion h
    | (injection h with h; subst h; rfl)

lemma processLoop_count_zero : ∀ (arts : List Article)
    (replies : Nat → Except Str Str) (insFail : Nat → Bool) (i : Nat)
    (conn : Conn), (processLoop replies insFail arts i conn).count = 0 := by
  intro arts
  induction arts with
  | nil => intro replies insFail i conn; rfl
  | cons a rest ih =>
    intro replies insFail i conn
    simp only [processLoop]
    cases hp : process_article a (replies i) (insFail i) conn with
    | error e => simp
    | ok x =>
      obtain ⟨db', p, v⟩ := x
      have hv : v = Option.none := process_article_ret_none _ _ _ _ _ hp
      subst hv
      simp [ih]

lemma insert_live_ok : ∀ (db : DBState) (f : Bool) (d : ArticleData)
    (db' : DBState) (b : Bool),
    insert_article (Conn.live db) f d = Except.ok (db', b) →
    ((b = true ↔ (f = false ∧ dbHasUrl db d.url = false)) ∧
     (b = true → db' = db ++ [mkRow d]) ∧
     (b = false → db' = db)) := by
  intro db f d db' b h
  cases f with
  | true =>
    simp [insert_article] at h
    obtain ⟨rfl, rfl⟩ := h
    simp
  | false =>
    cases hdb : dbHasUrl db d.url with
    | true =>
      simp [insert_article, hdb] at h
      obtain ⟨rfl, rfl⟩ := h
      simp [hdb]
    | false =>
      simp [insert_article, hdb] at h
      obtain ⟨rfl, rfl⟩ := h
      simp [hdb]

lemma process_article_insert_err : ∀ (a : Article) (t sn u pa : Str)
    (d : Option Str) (r : Except Str Str) (f : Bool) (conn : Conn) (m : Str),
    a.title = some t → a.description = some d →
    (truthy d = false → ∃ c, a.content = some c) →
    a.sourceName = some sn → a.url = some u → a.publishedAt = some pa →
    (∀ dta : ArticleData, insert_article conn f dta = Except.error m) →
    process_article a r f conn = Except.error m := by
  intro a t sn u pa d r f conn m ht hd hc hsn hu hpa hins
  obtain ⟨res, hres⟩ := summarize_ok a t d r ht hd hc
  simp [process_article, hres, ht, hsn, hu, hpa, hins]

/-! ### Concrete fixtures used by witnesses and counterexamples -/

/-- A well-formed article: every key present, description non-null (so the
`content` key, deliberately absent here, is never looked up thanks to the
short-circuit of Python `or`). -/
def artW : Article :=
  ⟨some (str "T"), some (some (str "D")), Option.none, some (str "S"),
    some (str "u"), some (str "p")⟩

/-- An article whose `description` KEY is absent (not merely null). -/
def badDescArt : Article :=
  ⟨some (str "T"), Option.none, some (some (str "C")), some (str "S"),
    some (str "u"), some (str "p")⟩

/-- The `article_data` produced from `artW` with model reply "x". -/
def dataW : ArticleData :=
  ⟨str "x", str "x", str "T", str "S", str "u", str "p"⟩

/-- The stored row produced from `artW` with model reply "x". -/
def rowW : DBRow := mkRow dataW

/-- One-article cycle inputs: fetch returns `[artW]`, the model replies "x",
no injected insert failure. -/
def inpW : CycleInputs :=
  ⟨Except.ok [artW], fun _ => Except.ok (str "x"), fun _ => false⟩

/-- Cycle inputs whose fetch fails with a transport error. -/
def inpErrW : CycleInputs :=
  ⟨Except.error (str "timed out"), fun _ => Except.ok (str "x"),
    fun _ => false⟩

/-! ### Claim theorems -/

/-- Claim C3 counterexample. The claim says the "Headline: " marker is
stripped ONLY as a prefix of the pre-boundary segment. On the reply
"A Headline: B\n\nC" the pre-boundary segment is "A Headline: B", of which
"Headline: " is not a prefix, so the claim demands headline "A Headline: B";
the code's `replace` removes the mid-string occurrence and yields "A B".
Moreover the claim says that with no blank-line boundary, headline and summary
equal the full reply text; the code first strips the reply, so on "R\n\nX "
the summary is "X", not the claimed "X ". -/
theorem parse_reply_replace_all_cex :
    parseReply (str "A Headline: B\n\nC") = ⟨str "A B", str "C"⟩ ∧
    pySplit1 blankSep (pyStrip (str "A Headline: B\n\nC"))
      = (str "A Headline: B", some (str "C")) ∧
    headlinePat.isPrefixOf (str "A Headline: B") = false ∧
    str "A B" ≠ str "A Headline: B" ∧
    parseReply (str "R\n\nX ") = ⟨str "R", str "X"⟩ ∧
    str "X" ≠ str "X " := by
  decide

/-- Claim C3 (amended): the reply is first stripped of surrounding
whitespace, then split at the first blank-line boundary; the headline is the
pre-boundary segment with EVERY occurrence of the literal "Headline: "
substring removed (not only a leading prefix), the summary is the
post-boundary segment; when the stripped reply has no blank-line boundary,
headline and summary both equal the stripped reply with every "Headline: "
occurrence removed. -/
theorem parse_reply_split_replace_all : ∀ (r pre post : Str),
    (pySplit1 blankSep (pyStrip r) = (pre, some post) →
      (pyStrip r = pre ++ blankSep ++ post ∧
       parseReply r = ⟨pyReplace headlinePat [] pre, post⟩)) ∧
    (isSubstr blankSep (pyStrip r) = false →
      parseReply r = ⟨pyReplace headlinePat [] (pyStrip r),
                      pyReplace headlinePat [] (pyStrip r)⟩) := by
  intro r pre post
  constructor
  · intro h
    refine ⟨pySplit1_some_append _ _ _ _ h, ?_⟩
    simp only [parseReply]
    rw [h]
  · intro h
    have h2 := isSubstr_false_split blankSep (pyStrip r) h
    simp only [parseReply]
    rw [h2]

/-- Witness for C3 (amended) at the reply "Headline: A\n\nB". -/
theorem parse_reply_split_replace_all_w :
    pyStrip (str "Headline: A\n\nB")
      = (str "Headline: A") ++ blankSep ++ (str "B") ∧
    parseReply (str "Headline: A\n\nB")
      = ⟨pyReplace headlinePat [] (str "Headline: A"), str "B"⟩ :=
  (parse_reply_split_replace_all (str "Headline: A\n\nB")
    (str "Headline: A") (str "B")).1 (by decide)

/-- Claim C4 counterexample: an article whose `description` KEY is absent
makes line 80 (`article['description'] or ...`, outside the `try:`) raise a
`KeyError` that propagates out of `summarize_article`, even though the model
call itself would have succeeded. -/
theorem summarize_missing_description_key_cex :
    summarize_article badDescArt (Except.ok (str "a reply"))
      = Except.error keyErrDescription := rfl

/-- Claim C4 (amended): for every article whose `title` and `description`
keys are present (their values may be null) and whose `content` key is
present whenever the description is null or empty, `summarize_article`
returns a headline/summary result and never propagates an error, whatever
the model call does; when one of those keys is absent the lookup error
propagates (see the counterexample). -/
theorem summarize_total_when_keys_present : ∀ (art : Article) (t : Str)
    (d : Option Str) (reply : Except Str Str),
    art.title = some t → art.description = some d →
    (truthy d = false → ∃ c, art.content = some c) →
    isOkE (summarize_article art reply) = true := by
  intro art t d reply ht hd hc
  obtain ⟨res, hres⟩ := summarize_ok art t d reply ht hd hc
  simp [hres, isOkE]

/-- Witness for C4 (amended) at `artW`. -/
theorem summarize_total_when_keys_present_w :
    isOkE (summarize_article artW (Except.ok (str "x"))) = true :=
  summarize_total_when_keys_present artW (str "T") (some (str "D"))
    (Except.ok (str "x")) rfl rfl
    (fun hf => absurd hf (by decide))

/-- Claim C5: when the model call fails, `summarize_article` returns the
article's original title as headline and its original description — or the
empty string when the description is null — as summary. (The keys themselves
must be present: an absent key raises before the model call is even reached,
see C4.) -/
theorem summarize_fallback_values : ∀ (art : Article) (t : Str)
    (d : Option Str) (e : Str),
    art.title = some t → art.description = some d →
    (truthy d = false → ∃ c, art.content = some c) →
    summarize_article art (Except.error e) = Except.ok ⟨t, d.getD []⟩ := by
  intro art t d e ht hd hc
  obtain ⟨s, hs⟩ := descOrContent_ok art d hc
  cases htr : truthy d with
  | true => simp [summarize_article, ht, hd, hs, htr]
  | false =>
    have hd0 : d.getD [] = [] := truthy_false_getD d htr
    simp [summarize_article, ht, hd, hs, htr, hd0]

/-- Witness for C5 at `artW` with a failing model call. -/
theorem summarize_fallback_values_w :
    summarize_article artW (Except.error (str "api down"))
      = Except.ok ⟨str "T", (some (str "D")).getD []⟩ :=
  summarize_fallback_values artW (str "T") (some (str "D")) (str "api down")
    rfl rfl (fun hf => absurd hf (by decide))

/-- Claim C6: for a live connection, `insert_article` always returns (a
failure inside the `try` is caught, logged, rolled back — never propagated),
and it returns `True` exactly when a new row was created: `False` both on a
URL conflict and on any other insert failure; on `True` the table gains
exactly the new row, on `False` (conflict or rolled-back failure) the table
is unchanged, and — the call being characterized for EVERY table state — the
connection remains usable for subsequent calls. -/
theorem insert_article_result_characterization : ∀ (db : DBState) (f : Bool)
    (a : ArticleData),
    isOkE (insert_article (Conn.live db) f a) = true ∧
    ∀ (db' : DBState) (b : Bool),
      insert_article (Conn.live db) f a = Except.ok (db', b) →
      ((b = true ↔ (f = false ∧ dbHasUrl db a.url = false)) ∧
       (b = true → db' = db ++ [mkRow a]) ∧
       (b = false → db' = db)) := by
  intro db f a
  constructor
  · cases f with
    | true => simp [insert_article, isOkE]
    | false =>
      cases hdb : dbHasUrl db a.url <;> simp [insert_article, isOkE, hdb]
  · intro db' b h
    exact insert_live_ok db f a db' b h

/-- Witness for C6: inserting into the empty table succeeds as a new row. -/
theorem insert_article_result_characterization_w :
    ((true = true ↔ (false = false ∧ dbHasUrl [] dataW.url = false)) ∧
     (true = true → [mkRow dataW] = [] ++ [mkRow dataW]) ∧
     (true = false → [mkRow dataW] = [])) :=
  (insert_article_result_characterization [] false dataW).2
    [mkRow dataW] true rfl

/-- Claim C7: on any transport / HTTP-status / malformed-body failure of the
feed request, `fetch_news` returns the empty sequence, so the cycle performs
no article processing: the connection is returned unchanged, no Publisher
invocation occurs, the processed count is zero, no reconnect happens, and no
error escapes (`run_news_cycle` returns normally). -/
theorem fetch_failure_empty_cycle : ∀ (conn : Conn) (inp : CycleInputs)
    (rc : Conn) (e : Str),
    inp.fetched = Except.error e →
    fetch_news inp.fetched = [] ∧
    run_news_cycle conn inp rc = ⟨conn, [], 0, false⟩ := by
  intro conn inp rc e h
  constructor
  · simp [fetch_news, h]
  · simp [run_news_cycle, fetch_news, h, processLoop]

/-- Witness for C7 at a concrete failing fetch. -/
theorem fetch_failure_empty_cycle_w :
    fetch_news inpErrW.fetched = [] ∧
    run_news_cycle (Conn.live []) inpErrW Conn.nullc
      = ⟨Conn.live [], [], 0, false⟩ :=
  fetch_failure_empty_cycle (Conn.live []) inpErrW Conn.nullc
    (str "timed out") rfl

/-- Claim C8: the signal handler only ever sets the running flag false, and
the loop checks the flag at its safe points (the boundary after each idle
sleep). Once the flag is false at boundary `n`, then from every later
boundary the loop emits no further event at all: no new cycle starts and no
further sleep tick occurs, i.e. the loop exits within the single idle
increment in progress when the signal arrived — also when no cycle was in
flight. (`sig` is required to be monotone: the flag, once false, is never
reset, matching the handler.) -/
theorem shutdown_no_new_cycle : ∀ (sig due : Nat → Bool) (fuel n i : Nat),
    (∀ a b : Nat, a ≤ b → sig a = true → sig b = true) →
    sig n = true → n ≤ i →
    mainLoop sig due fuel i = [] := by
  intro sig due fuel n i hmono hn hni
  have hi : sig i = true := hmono n i hni hn
  cases fuel with
  | zero => rfl
  | succ f => simp [mainLoop, hi]

/-- Witness for C8: a signal delivered before boundary 1 stops a loop that
still has fuel and a due cadence. -/
theorem shutdown_no_new_cycle_w :
    mainLoop (fun k => decide (1 ≤ k)) (fun _ => true) 5 1 = [] :=
  shutdown_no_new_cycle (fun k => decide (1 ≤ k)) (fun _ => true) 5 1 1
    (fun a b hab ha => by
      simp only [decide_eq_true_eq] at ha ⊢
      exact le_trans ha hab)
    (by decide) (Nat.le_refl 1)

/-- Claim C1 (dedup gate): whenever `process_article` completes on a live
connection, the Publisher is invoked (the post component is `some _`) exactly
when the insert created a new row, i.e. exactly when no injected insert
failure occurred and the article's URL was not already stored; an article
whose URL is already stored, or whose insert fails, is never published. -/
theorem dedup_gate_publish_iff_new : ∀ (a : Article) (r : Except Str Str)
    (f : Bool) (db db' : DBState) (p : Option Post) (v : Option Unit)
    (u : Str),
    a.url = some u →
    process_article a r f (Conn.live db) = Except.ok (db', p, v) →
    (p.isSome = true ↔ (f = false ∧ dbHasUrl db u = false)) := by
  intro a r f db db' p v u hu h
  simp only [process_article, hu] at h
  cases hs : summarize_article a r with
  | error e => rw [hs] at h; exact Except.noConfusion h
  | ok res =>
    rw [hs] at h
    cases ht : a.title with
    | none => rw [ht] at h; exact Except.noConfusion h
    | some t =>
      rw [ht] at h
      cases hsn : a.sourceName with
      | none => rw [hsn] at h; exact Except.noConfusion h
      | some sn =>
        rw [hsn] at h
        cases hpa : a.publishedAt with
        | none => rw [hpa] at h; exact Except.noConfusion h
        | some pa =>
          rw [hpa] at h
          cases f with
          | true =>
            simp [insert_article] at h
            obtain ⟨-, hp, -⟩ := h
            simp [← hp]
          | false =>
            cases hdb : dbHasUrl db u with
            | true =>
              simp [insert_article, hdb] at h
              obtain ⟨-, hp, -⟩ := h
              simp [← hp, hdb]
            | false =>
              simp [insert_article, hdb] at h
              obtain ⟨-, hp, -⟩ := h
              simp [← hp, hdb]

/-- Witness for C1: a fresh URL on an empty table is published. -/
theorem dedup_gate_publish_iff_new_w :
    ((some ((str "x"), (str "u")) : Option Post).isSome = true ↔
      (false = false ∧ dbHasUrl [] (str "u") = false)) :=
  dedup_gate_publish_iff_new artW (Except.ok (str "x")) false [] [rowW]
    (some (str "x", str "u")) Option.none (str "u") rfl rfl

/-- Claim C2 (idempotent ingestion): starting from any table holding at most
one row for url `u`, inserting an article with url `u` and then inserting any
article with the same url (in this or any later cycle — the table state is
universally quantified) leaves exactly one stored row for `u` after each of
the two inserts, and the second insert returns `False` ("no new row") rather
than failing. -/
theorem insert_article_idempotent_per_url : ∀ (db : DBState) (u : Str)
    (a1 a2 : ArticleData) (db1 db2 : DBState) (b1 b2 : Bool),
    a1.url = u → a2.url = u → urlCount db u ≤ 1 →
    insert_article (Conn.live db) false a1 = Except.ok (db1, b1) →
    insert_article (Conn.live db1) false a2 = Except.ok (db2, b2) →
    urlCount db1 u = 1 ∧ urlCount db2 u = 1 ∧ b2 = false := by
  intro db u a1 a2 db1 db2 b1 b2 h1 h2 hle hi1 hi2
  subst h1
  cases hdb : dbHasUrl db a1.url with
  | true =>
    simp [insert_article, hdb] at hi1
    obtain ⟨rfl, rfl⟩ := hi1
    have hcnt : urlCount db a1.url = 1 :=
      Nat.le_antisymm hle (dbHasUrl_true_count db a1.url hdb)
    have hdb2 : dbHasUrl db a2.url = true := by rw [h2]; exact hdb
    simp [insert_article, hdb2] at hi2
    obtain ⟨rfl, rfl⟩ := hi2
    exact ⟨hcnt, hcnt, rfl⟩
  | false =>
    simp [insert_article, hdb] at hi1
    obtain ⟨rfl, rfl⟩ := hi1
    have hc0 : urlCount db a1.url = 0 := dbHasUrl_false_count db a1.url hdb
    have hc1 : urlCount (db ++ [mkRow a1]) a1.url = 1 := by
      rw [urlCount_append, hc0, urlCount_single]
      simp
    have hdb2 : dbHasUrl (db ++ [mkRow a1]) a2.url = true := by
      rw [h2, dbHasUrl_append, dbHasUrl_single_self]
      simp
    simp [insert_article, hdb2] at hi2
    obtain ⟨rfl, rfl⟩ := hi2
    exact ⟨hc1, hc1, rfl⟩

/-- Witness for C2: inserting `dataW` twice into an empty table. -/
theorem insert_article_idempotent_per_url_w :
    urlCount [mkRow dataW] (str "u") = 1 ∧
    urlCount [mkRow dataW] (str "u") = 1 ∧ false = false :=
  insert_article_idempotent_per_url [] (str "u") dataW dataW
    [mkRow dataW] [mkRow dataW] true false rfl rfl (by decide) rfl rfl

/-- Claim C9 (reconnect heuristic). Part 1: when the per-article loop
finishes without an uncaught error, the cycle returns normally with the same
connection and no reconnect. Part 2: when an error `e` aborts the loop, the
cycle still returns (the error never terminates the loop); it returns
`connect_db()`'s result (a reconnect) exactly when the lowercased error text
contains the substring "connection", and otherwise the same connection
object, unchanged. Part 3: a lost (closed) connection makes the first insert
raise "connection already closed" at `conn.cursor()`, which the heuristic
catches and answers with a reconnect. Part 4: when the reconnect itself
failed (the connection is the Python value `None`), every later cycle has its
first insert attempt fail with an `AttributeError` whose text does not
contain "connection": the error is caught and logged at cycle level, nothing
is published, and the loop keeps running with the same `None` connection. -/
theorem cycle_error_reconnect_heuristic :
    (∀ (conn : Conn) (inp : CycleInputs) (rc : Conn) (co : Conn)
       (ps : List Post) (ct : Nat),
       processLoop inp.replies inp.insertFail (fetch_news inp.fetched) 0 conn
         = ⟨co, ps, ct, Option.none⟩ →
       run_news_cycle conn inp rc = ⟨co, ps, ct, false⟩) ∧
    (∀ (conn : Conn) (inp : CycleInputs) (rc : Conn) (co : Conn)
       (ps : List Post) (ct : Nat) (e : Str),
       processLoop inp.replies inp.insertFail (fetch_news inp.fetched) 0 conn
         = ⟨co, ps, ct, some e⟩ →
       run_news_cycle conn inp rc =
         (if isSubstr connWord (pyLower e) then ⟨rc, ps, ct, true⟩
          else ⟨co, ps, ct, false⟩)) ∧
    (∀ (inp : CycleInputs) (rc : Conn) (a : Article) (rest : List Article)
       (t sn u pa : Str) (d : Option Str),
       inp.fetched = Except.ok (a :: rest) →
       a.title = some t → a.description = some d →
       (truthy d = false → ∃ c, a.content = some c) →
       a.sourceName = some sn → a.url = some u → a.publishedAt = some pa →
       run_news_cycle Conn.closedc inp rc = ⟨rc, [], 0, true⟩) ∧
    (∀ (inp : CycleInputs) (rc : Conn) (a : Article) (rest : List Article)
       (t sn u pa : Str) (d : Option Str),
       inp.fetched = Except.ok (a :: rest) →
       a.title = some t → a.description = some d →
       (truthy d = false → ∃ c, a.content = some c) →
       a.sourceName = some sn → a.url = some u → a.publishedAt = some pa →
       run_news_cycle Conn.nullc inp rc = ⟨Conn.nullc, [], 0, false⟩) := by
  refine ⟨?_, ?_, ?_, ?_⟩
  · intro conn inp rc co ps ct h
    simp only [run_news_cycle]
    rw [h]
  · intro conn inp rc co ps ct e h
    simp only [run_news_cycle]
    rw [h]
  · intro inp rc a rest t sn u pa d hf ht hd hc hsn hu hpa
    have hpe : process_article a (inp.replies 0) (inp.insertFail 0)
        Conn.closedc = Except.error closedMsg :=
      process_article_insert_err a t sn u pa d (inp.replies 0)
        (inp.insertFail 0) Conn.closedc closedMsg ht hd hc hsn hu hpa
        (fun _ => rfl)
    have hsub : isSubstr connWord (pyLower closedMsg) = true := by decide
    simp [run_news_cycle, fetch_news, hf, processLoop, hpe, hsub]
  · intro inp rc a rest t sn u pa d hf ht hd hc hsn hu hpa
    have hpe : process_article a (inp.replies 0) (inp.insertFail 0)
        Conn.nullc = Except.error noneCursorMsg :=
      process_article_insert_err a t sn u pa d (inp.replies 0)
        (inp.insertFail 0) Conn.nullc noneCursorMsg ht hd hc hsn hu hpa
        (fun _ => rfl)
    have hsub : isSubstr connWord (pyLower noneCursorMsg) = false := by decide
    simp [run_news_cycle, fetch_news, hf, processLoop, hpe, hsub]

/-- Witness for C9: parts 3 and 4 at the one-article inputs `inpW`. -/
theorem cycle_error_reconnect_heuristic_w :
    run_news_cycle Conn.closedc inpW (Conn.live [])
      = ⟨Conn.live [], [], 0, true⟩ ∧
    run_news_cycle Conn.nullc inpW Conn.nullc
      = ⟨Conn.nullc, [], 0, false⟩ :=
  ⟨cycle_error_reconnect_heuristic.2.2.1 inpW (Conn.live []) artW []
     (str "T") (str "S") (str "u") (str "p") (some (str "D")) rfl rfl rfl
     (fun hf => absurd hf (by decide)) rfl rfl rfl,
   cycle_error_reconnect_heuristic.2.2.2 inpW Conn.nullc artW []
     (str "T") (str "S") (str "u") (str "p") (some (str "D")) rfl rfl rfl
     (fun hf => absurd hf (by decide)) rfl rfl rfl⟩

/-- Claim C10 (implicit): the Python body of `process_article` has no
`return`, so the function's value is always `None`; hence the guard
`if process_article(...)` in `run_news_cycle` is never taken and the reported
count of newly processed articles is zero for every cycle, whatever was
actually inserted and published. -/
theorem processed_count_always_zero :
    (∀ (a : Article) (r : Except Str Str) (f : Bool) (conn : Conn)
       (x : DBState × Option Post × Option Unit),
       process_article a r f conn = Except.ok x → x.2.2 = Option.none) ∧
    (∀ (conn : Conn) (inp : CycleInputs) (rc : Conn),
       (run_news_cycle conn inp rc).count = 0) := by
  constructor
  · exact process_article_ret_none
  · intro conn inp rc
    have h := processLoop_count_zero (fetch_news inp.fetched) inp.replies
      inp.insertFail 0 conn
    simp only [run_news_cycle]
    split
    · exact h
    · split
      · exact h
      · exact h

/-- Witness for C10: the successfully processed-and-published `artW` still
yields a `None` return value and a zero cycle count. -/
theorem processed_count_always_zero_w :
    ((([rowW], some ((str "x"), (str "u")),
        (Option.none : Option Unit)) :
        DBState × Option Post × Option Unit).2.2
      = (Option.none : Option Unit)) ∧
    (run_news_cycle (Conn.live []) inpW Conn.nullc).count = 0 :=
  ⟨processed_count_always_zero.1 artW (Except.ok (str "x")) false
     (Conn.live []) ([rowW], some (str "x", str "u"), Option.none) rfl,
   processed_count_always_zero.2 (Conn.live []) inpW Conn.nullc⟩
